/-
  Verification of the opsai ingestion pipeline.

  Shallow embedding of the ingestor services:
  - `analyzeWikimediaSeverity` from wikimedia-ingestor.service.ts
  - `analyzeGitHubSeverity` from github-ingestor.service.ts
  - the batch processor (`processPendingEvents`, `processEvents`,
    `processSingleEvent`, `analyzeEventForIncident`, `createIncident`)
    from event-processor.service.ts
  - topic provisioning (`ensureTopicExists`, `initializeDefaultTopics`)
    from kafka.service.ts

  JavaScript semantics are modelled explicitly: optional fields are
  `Option`, property access on a missing object is an `Except.error`
  (a thrown TypeError), `x || d` on a possibly-missing string is
  `Option.getD` (with the empty string treated as falsy where the code
  relies on it), and arithmetic on a missing number yields a NaN whose
  comparisons are false.
-/
import Mathlib

namespace Opsai

/-! ## JavaScript string primitives

Executable (kernel-reducible) models of the string methods the code
uses: `toLowerCase`, `toUpperCase`, `includes`, `replace(/_/g,' ')` and
`replace('refs/heads/','')`. -/

/-- `String.prototype.toLowerCase` on the ASCII range. -/
def jsToLower (s : String) : String := ⟨s.data.map Char.toLower⟩

/-- `String.prototype.toUpperCase` on the ASCII range. -/
def jsToUpper (s : String) : String := ⟨s.data.map Char.toUpper⟩

/-- Character-list infix test. -/
def isInfixOfCL (pat : List Char) : List Char → Bool
  | [] => pat.isEmpty
  | c :: cs => pat.isPrefixOf (c :: cs) || isInfixOfCL pat cs

/-- `String.prototype.includes`. -/
def jsIncludes (s pat : String) : Bool := isInfixOfCL pat.data s.data

/-- `replace(/_/g, ' ')`: a global single-character substitution. -/
def underscoresToSpaces (s : String) : String :=
  ⟨s.data.map fun c => if c = '_' then ' ' else c⟩

/-- `String.prototype.replace` with a plain-string pattern replaces the
first occurrence only. -/
def replaceFirstAux (pat rep : List Char) : List Char → List Char
  | [] => []
  | c :: cs =>
    if pat.isPrefixOf (c :: cs) then rep ++ (c :: cs).drop pat.length
    else c :: replaceFirstAux pat rep cs

/-- `s.replace(pat, rep)` for a plain-string `pat`. -/
def jsReplaceFirst (s pat rep : String) : String :=
  ⟨replaceFirstAux pat.data rep.data s.data⟩

/-! ## Raw payloads -/

/-- `wikiEvent.length` sub-object: byte sizes of the page before/after. -/
structure WikiLength where
  old : Option Int := none
  new : Option Int := none
deriving Repr, DecidableEq

/-- A Wikimedia recent-change raw payload, with exactly the fields the
ingestor reads.  Fields that may be absent in the JSON are `Option`. -/
structure WikiEvent where
  bot : Bool := false
  minor : Bool := false
  comment : Option String := none
  title : Option String := none
  length : Option WikiLength := none
  wtype : String := "edit"
  user : String := ""
  wnamespace : Int := 0
  metaDt : Int := 0
deriving Repr, DecidableEq

/-- A GitHub issue/PR label. -/
structure Label where
  name : String
deriving Repr, DecidableEq

/-- `payload.issue`: the ingestor reads its labels and title. -/
structure Issue where
  labels : Option (List Label) := none
  title : Option String := none
deriving Repr, DecidableEq

/-- `payload.pull_request`: a pull request carries its own labels and
title (the classifier never reads these labels, only the summary reads
the title). -/
structure PullRequest where
  labels : Option (List Label) := none
  title : Option String := none
deriving Repr, DecidableEq

/-- A commit inside `payload.commits`. -/
structure Commit where
  message : String
deriving Repr, DecidableEq

/-- `payload.alert.rule`. -/
structure Rule where
  security_severity : Option String := none
  name : Option String := none
deriving Repr, DecidableEq

/-- `payload.alert.security_vulnerability`. -/
structure SecurityVulnerability where
  severity : Option String := none
deriving Repr, DecidableEq

/-- `payload.alert`. -/
structure Alert where
  rule : Option Rule := none
  security_vulnerability : Option SecurityVulnerability := none
deriving Repr, DecidableEq

/-- `payload.security_advisory`. -/
structure SecurityAdvisory where
  summary : Option String := none
deriving Repr, DecidableEq

/-- A GitHub event payload, with the fields the ingestor reads. -/
structure Payload where
  action : Option String := none
  alert : Option Alert := none
  commits : Option (List Commit) := none
  ref : Option String := none
  issue : Option Issue := none
  pull_request : Option PullRequest := none
  security_advisory : Option SecurityAdvisory := none
deriving Repr, DecidableEq

/-- `githubEvent.repo` (`rprivate` models the `private` field, a Lean
keyword). -/
structure Repo where
  name : Option String := none
  rprivate : Option Bool := none
deriving Repr, DecidableEq

/-- `githubEvent.actor` (`atype` models the `type` field). -/
structure Actor where
  login : Option String := none
  atype : Option String := none
deriving Repr, DecidableEq

/-- A GitHub raw event payload. -/
structure GitHubEvent where
  gtype : String
  payload : Option Payload := none
  repo : Option Repo := none
  actor : Option Actor := none
  created_at : Int := 0
deriving Repr, DecidableEq

/-! ## Wikimedia severity classifier
(`analyzeWikimediaSeverity`, wikimedia-ingestor.service.ts:147-178) -/

/-- The fixed sensitive-keyword list of `analyzeWikimediaSeverity`. -/
def sensitiveKeywords : List String :=
  ["vandalism", "spam", "attack", "hack", "security"]

/-- The fixed important-page list of `analyzeWikimediaSeverity`. -/
def importantPages : List String := ["main page", "homepage", "index"]

/-- `sensitiveKeywords.some(keyword => comment.includes(keyword) ||
wikiEvent.title.toLowerCase().includes(keyword))`: JavaScript `some`
iterates in order with short-circuiting; when the comment check misses,
`wikiEvent.title.toLowerCase()` throws a TypeError if `title` is absent. -/
def someSensitive (comment : String) (title : Option String) :
    List String → Except String Bool
  | [] => .ok false
  | k :: ks =>
    if jsIncludes comment k then .ok true
    else
      match title with
      | none => .error "TypeError: Cannot read properties of undefined"
      | some t =>
        if jsIncludes (jsToLower t) k then .ok true
        else someSensitive comment title ks

/-- `analyzeWikimediaSeverity` (wikimedia-ingestor.service.ts:147-178).
Returns `Except`: the classifier throws when it dereferences a missing
`title`.  The `length` sub-fields go through JavaScript truthiness
(`0` is falsy); a subtraction involving a missing bound would be NaN,
whose `>` comparison is false, but the truthiness guard already rules
that out here. -/
def analyzeWikimediaSeverity (w : WikiEvent) : Except String String := do
  let comment := jsToLower (w.comment.getD "")
  let hasSensitiveContent ← someSensitive comment w.title sensitiveKeywords
  if hasSensitiveContent then
    return "critical"
  let massEdit : Bool :=
    match w.length with
    | some l =>
      match l.old, l.new with
      | some o, some n => if o ≠ 0 ∧ n ≠ 0 then decide ((n - o).natAbs > 10000) else false
      | _, _ => false
    | none => false
  if massEdit then
    return "high"
  match w.title with
  | none => .error "TypeError: Cannot read properties of undefined"
  | some t =>
    if importantPages.any fun p => jsIncludes (jsToLower t) p then
      return "medium"
    else
      return "low"

/-! ## GitHub severity classifier
(`analyzeGitHubSeverity`, github-ingestor.service.ts:153-216) -/

/-- `analyzeGitHubSeverity` (github-ingestor.service.ts:153-216).
`const payload = githubEvent.payload || {}` makes every later access
safe, so this classifier is total. -/
def analyzeGitHubSeverity (g : GitHubEvent) : String :=
  let payload := g.payload.getD {}
  if g.gtype = "SecurityAdvisoryEvent" then "critical"
  else if g.gtype = "CodeScanningAlertEvent" then
    let severity := (payload.alert.bind (·.rule)).bind (·.security_severity)
    if severity = some "critical" ∨ severity = some "high" then "critical"
    else if severity = some "medium" then "high"
    else "medium"
  else if g.gtype = "DependabotAlertEvent" then
    let severity := (payload.alert.bind (·.security_vulnerability)).bind (·.severity)
    if severity = some "critical" ∨ severity = some "high" then "critical"
    else if severity = some "medium" then "high"
    else "medium"
  else if g.gtype = "PushEvent" then
    let commits := payload.commits.getD []
    let hasBreakingChanges := commits.any fun c =>
      jsIncludes (jsToLower c.message) "breaking" ∨
      jsIncludes (jsToLower c.message) "deprecate"
    if hasBreakingChanges then "high"
    else if payload.ref = some "refs/heads/main" ∨ payload.ref = some "refs/heads/master" then
      "medium"
    else "low"
  else if g.gtype = "IssuesEvent" ∨ g.gtype = "PullRequestEvent" then
    if payload.action = some "opened" ∧
        ((payload.issue.bind (·.labels)).getD []).any
          (fun l => ["security", "bug", "critical"].contains (jsToLower l.name)) then
      "high"
    else "low"
  else "low"

/-! ## Canonical records (spec §3; event.schema / incident.schema) -/

/-- The opaque original payload stored on an Event. -/
inductive Raw where
  | wiki (w : WikiEvent)
  | github (g : GitHubEvent)
  | other
deriving Repr, DecidableEq

/-- A persisted Event row.  `status` ranges over
`"pending" | "processed" | "failed"`. -/
structure Event where
  id : Nat
  source : String
  etype : String := ""
  timestamp : Int := 0
  raw : Raw := .other
  tags : List String := []
  status : String := "pending"
  severity : String := "low"
  service : Option String := none
  summary : String := ""
  incidentId : Option Nat := none
  processingError : Option String := none
  processedAt : Option Int := none
deriving Repr, DecidableEq

/-- A persisted Incident row (the fields `createIncident` writes). -/
structure Incident where
  id : Nat
  title : String
  summary : String
  severity : String
  status : String := "open"
  source : String
  service : Option String := none
  tags : List String := []
  raw : Raw := .other
  eventIds : List Nat := []
  impact : String := ""
  rootCause : String := ""
  affectedServices : List String := []
  runbook : List String := []
  detectedAt : Int := 0
deriving Repr, DecidableEq

/-! ## Normalizers (processWikimediaEvent / processGitHubEvent) -/

/-- JavaScript `x || d` on a possibly-missing string: both `undefined`
and the empty string are falsy. -/
def jsOrStr (o : Option String) (d : String) : String :=
  match o with
  | some s => if s = "" then d else s
  | none => d

/-- String interpolation of a possibly-missing value: JavaScript prints
`undefined`. -/
def jsStr (o : Option String) : String :=
  match o with
  | some s => s
  | none => "undefined"

/-- `extractWikimediaTags` (wikimedia-ingestor.service.ts:180-196). -/
def extractWikimediaTags (w : WikiEvent) : List String :=
  ["wikimedia", "edit"]
    ++ (if w.bot then ["bot"] else [])
    ++ (if w.minor then ["minor"] else [])
    ++ (if w.wtype = "new" then ["new-page"] else [])
    ++ (if w.wtype = "edit" then ["edit-page"] else [])
    ++ (if w.wtype = "log" then ["log-entry"] else [])
    ++ (if w.wnamespace = 0 then ["main-namespace"] else [])
    ++ (if w.wnamespace = 1 then ["talk-namespace"] else [])
    ++ (if w.wnamespace = 2 then ["user-namespace"] else [])
    ++ (if w.wnamespace = 3 then ["user-talk-namespace"] else [])

/-- `generateWikimediaSummary` (wikimedia-ingestor.service.ts:198-205). -/
def generateWikimediaSummary (w : WikiEvent) : String :=
  let action := if w.wtype = "new" then "created" else "edited"
  let page := jsStr w.title
  let comment :=
    match w.comment with
    | some c => if c = "" then "" else " (" ++ c ++ ")"
    | none => ""
  page ++ " was " ++ action ++ " by " ++ w.user ++ comment

/-- The Event row built by `processWikimediaEvent`
(wikimedia-ingestor.service.ts:97-124); fails when the severity
classifier throws (the catch then drops the chunk, no row is written). -/
def normalizeWikimedia (id : Nat) (w : WikiEvent) : Except String Event := do
  let severity ← analyzeWikimediaSeverity w
  return { id, source := "wikimedia", etype := "change", timestamp := w.metaDt,
           raw := .wiki w, tags := extractWikimediaTags w, status := "pending",
           severity, service := some "wikipedia",
           summary := generateWikimediaSummary w }

/-- `extractGitHubTags` (github-ingestor.service.ts:218-246). -/
def extractGitHubTags (g : GitHubEvent) : List String :=
  let payload := g.payload.getD {}
  ["github", g.gtype]
    ++ (match payload.action with
        | some a => if a = "" then [] else [a]
        | none => [])
    ++ (match payload.issue.bind (·.labels) with
        | some ls => ls.map (fun l => "label:" ++ l.name)
        | none => [])
    ++ (match g.actor.bind (·.atype) with
        | some t => if t = "" then [] else ["actor:" ++ t]
        | none => [])
    ++ (match g.repo.bind (·.rprivate) with
        | some b => [if b then "private" else "public"]
        | none => [])

/-- `generateGitHubSummary` (github-ingestor.service.ts:248-281).
(`String.replace` replaces every occurrence where JavaScript's
`replace` with a string pattern replaces the first; the branch prefix
`refs/heads/` occurs at most once in a git ref.) -/
def generateGitHubSummary (g : GitHubEvent) : String :=
  let actor := jsOrStr (g.actor.bind (·.login)) "Unknown"
  let repo := jsOrStr (g.repo.bind (·.name)) "Unknown"
  let payload := g.payload.getD {}
  if g.gtype = "PushEvent" then
    let commits := payload.commits.getD []
    let branch :=
      match payload.ref with
      | some r => let b := jsReplaceFirst r "refs/heads/" ""
                  if b = "" then "unknown" else b
      | none => "unknown"
    actor ++ " pushed " ++ toString commits.length ++ " commit(s) to "
      ++ repo ++ ":" ++ branch
  else if g.gtype = "IssuesEvent" then
    let action := jsOrStr payload.action "unknown"
    let issueTitle := jsOrStr (payload.issue.bind (·.title)) "Unknown issue"
    actor ++ " " ++ action ++ " issue \"" ++ issueTitle ++ "\" in " ++ repo
  else if g.gtype = "PullRequestEvent" then
    let prAction := jsOrStr payload.action "unknown"
    let prTitle := jsOrStr (payload.pull_request.bind (·.title)) "Unknown PR"
    actor ++ " " ++ prAction ++ " PR \"" ++ prTitle ++ "\" in " ++ repo
  else if g.gtype = "SecurityAdvisoryEvent" then
    let advisory := jsOrStr (payload.security_advisory.bind (·.summary)) "Security advisory"
    "Security advisory: " ++ advisory ++ " in " ++ repo
  else if g.gtype = "CodeScanningAlertEvent" then
    let alert := jsOrStr ((payload.alert.bind (·.rule)).bind (·.name)) "Code scanning alert"
    "Code scanning alert: " ++ alert ++ " in " ++ repo
  else
    actor ++ " performed " ++ g.gtype ++ " in " ++ repo

/-- The Event row built by `processGitHubEvent`
(github-ingestor.service.ts:103-125). -/
def normalizeGitHub (id : Nat) (g : GitHubEvent) : Event :=
  { id, source := "github", etype := g.gtype, timestamp := g.created_at,
    raw := .github g, tags := extractGitHubTags g, status := "pending",
    severity := analyzeGitHubSeverity g, service := some "github",
    summary := generateGitHubSummary g }

/-! ## Incident analysis (event-processor.service.ts:107-236) -/

/-- The analysis draft built by `analyzeEventForIncident` and filled in
by the per-source analyzers. -/
structure Analysis where
  shouldCreateIncident : Bool := false
  incidentType : String := ""
  priority : String
  affectedServices : List String := []
  impact : String := ""
  rootCause : String := ""
  runbook : List String := []
deriving Repr, DecidableEq

/-- `event.raw.length` as read by `analyzeWikimediaEvent`. -/
def rawWikiLength : Raw → Option WikiLength
  | .wiki w => w.length
  | _ => none

/-- `event.raw.repo?.name` as read by `analyzeGitHubEvent`. -/
def rawRepoName : Raw → Option String
  | .github g => g.repo.bind (·.name)
  | _ => none

/-- The content-security draft filled in by `analyzeWikimediaEvent`
(event-processor.service.ts:141-154). -/
def contentSecurityAnalysis (priority : String) : Analysis :=
  { shouldCreateIncident := true, incidentType := "content_security",
    priority, affectedServices := ["wikipedia"],
    impact := "Potential content security threat detected",
    rootCause := "Suspicious content modification",
    runbook := ["Review the modified content",
                "Check user history and patterns",
                "Consider content rollback if necessary",
                "Monitor for similar activities"] }

/-- The mass-content-change draft filled in by `analyzeWikimediaEvent`
(event-processor.service.ts:157-172). -/
def massContentChangeAnalysis (priority : String) : Analysis :=
  { shouldCreateIncident := true, incidentType := "mass_content_change",
    priority, affectedServices := ["wikipedia"],
    impact := "Large content modification detected",
    rootCause := "Massive content change",
    runbook := ["Review the scope of changes",
                "Verify content accuracy",
                "Check for automated tools usage",
                "Monitor page for further changes"] }

/-- `analyzeWikimediaEvent` (event-processor.service.ts:137-176).
The mass-edit branch reads `raw.length.new`/`raw.length.old` without a
presence check: a missing bound makes `Math.abs(...)` NaN, whose `>`
comparison is false, so the branch falls through to `null`. -/
def analyzeWikimediaEvent (e : Event) : Option Analysis :=
  if e.severity = "critical" then
    some (contentSecurityAnalysis e.severity)
  else
    match rawWikiLength e.raw with
    | some l =>
      if e.severity = "high" then
        let bigChange : Bool :=
          match l.new, l.old with
          | some n, some o => decide ((n - o).natAbs > 50000)
          | _, _ => false
        if bigChange then some (massContentChangeAnalysis e.severity)
        else none
      else none
    | none => none

/-- `['github', raw.repo?.name].filter(Boolean)`: a missing or empty
repo name is filtered out. -/
def githubAffectedServices (r : Raw) : List String :=
  "github" ::
    (match rawRepoName r with
     | some n => if n = "" then [] else [n]
     | none => [])

/-- The security-alert draft filled in by `analyzeGitHubEvent`
(event-processor.service.ts:182-196). -/
def securityAlertAnalysis (priority : String) (r : Raw) : Analysis :=
  { shouldCreateIncident := true, incidentType := "security_alert",
    priority, affectedServices := githubAffectedServices r,
    impact := "Security vulnerability or alert detected",
    rootCause := "Security scan or dependency alert",
    runbook := ["Review the security alert details",
                "Assess vulnerability impact",
                "Plan remediation steps",
                "Update dependencies if needed",
                "Monitor for similar alerts"] }

/-- The code-quality draft filled in by `analyzeGitHubEvent`
(event-processor.service.ts:199-212). -/
def codeQualityAnalysis (priority : String) (r : Raw) : Analysis :=
  { shouldCreateIncident := true, incidentType := "code_quality",
    priority, affectedServices := githubAffectedServices r,
    impact := "Code quality issue detected",
    rootCause := "Static analysis alert",
    runbook := ["Review the code scanning alert",
                "Fix the identified issues",
                "Update code quality rules if needed",
                "Monitor alert trends"] }

/-- `analyzeGitHubEvent` (event-processor.service.ts:178-215). -/
def analyzeGitHubEvent (e : Event) : Option Analysis :=
  if e.severity = "critical" ∨ e.severity = "high" then
    some (securityAlertAnalysis e.severity e.raw)
  else if e.etype = "CodeScanningAlertEvent" ∧ e.severity = "medium" then
    some (codeQualityAnalysis e.severity e.raw)
  else none

/-- The generic critical-event draft filled in by `analyzeGenericEvent`
(event-processor.service.ts:219-233). -/
def criticalEventAnalysis (priority : String) (service : Option String) :
    Analysis :=
  { shouldCreateIncident := true, incidentType := "critical_event",
    priority, affectedServices := [jsOrStr service "unknown"],
    impact := "Critical event detected requiring immediate attention",
    rootCause := "High severity event from external source",
    runbook := ["Assess event impact and scope",
                "Notify relevant stakeholders",
                "Implement immediate containment measures",
                "Investigate root cause",
                "Plan long-term resolution"] }

/-- `analyzeGenericEvent` (event-processor.service.ts:217-236). -/
def analyzeGenericEvent (e : Event) : Option Analysis :=
  if e.severity = "critical" then
    some (criticalEventAnalysis e.severity e.service)
  else none

/-- `analyzeEventForIncident` (event-processor.service.ts:107-135):
low-severity events never produce a draft; otherwise dispatch on the
event's source. -/
def analyzeEventForIncident (e : Event) : Option Analysis :=
  if e.severity = "low" then none
  else if e.source = "wikimedia" then analyzeWikimediaEvent e
  else if e.source = "github" then analyzeGitHubEvent e
  else analyzeGenericEvent e

/-- The Incident row built by `createIncident`
(event-processor.service.ts:240-256). -/
def makeIncident (e : Event) (a : Analysis) (iid : Nat) : Incident :=
  { id := iid,
    title := jsToUpper (underscoresToSpaces a.incidentType) ++ " - " ++ e.source,
    summary := e.summary, severity := a.priority, status := "open",
    source := e.source, service := e.service,
    tags := e.tags ++ [a.incidentType], raw := e.raw, eventIds := [e.id],
    impact := a.impact, rootCause := a.rootCause,
    affectedServices := a.affectedServices, runbook := a.runbook,
    detectedAt := e.timestamp }

/-! ## Batch processing with an explicit failure model

Each I/O call of one event's processing run may fail; `FailSpec` says
which do.  `LoggingService.logEvent` catches internally and never
rethrows, so it needs no flag. -/

/-- Which of the fallible calls of one event's processing throw. -/
structure FailSpec where
  incidentSaveFails : Bool := false
  eventSaveInCreateFails : Bool := false
  incidentKafkaFails : Bool := false
  processedSaveFails : Bool := false
  failedSaveFails : Bool := false
deriving Repr, DecidableEq

/-- Successful completion of `processSingleEvent`: the persisted event
row, the persisted incident row (if any) and the number of DB calls. -/
structure POk where
  ev : Event
  inc : Option Incident
  queries : Nat
deriving Repr, DecidableEq

/-- A throw out of `processSingleEvent`: the in-memory event at the
point of the throw, the last event row actually persisted, the incident
row that was persisted before the throw (if any), the error message and
the number of DB calls attempted. -/
structure PErr where
  mem : Event
  persisted : Event
  inc : Option Incident
  msg : String
  queries : Nat
deriving Repr, DecidableEq

/-- `createIncident` (event-processor.service.ts:238-280): save the
incident row, set `event.incidentId` in memory, save the event row
(still `pending`), then publish the notification; any failure is logged
and rethrown. -/
def runCreateIncident (fs : FailSpec) (e : Event) (a : Analysis) (iid : Nat) :
    Except PErr (Event × Incident × Nat) :=
  if fs.incidentSaveFails then
    .error { mem := e, persisted := e, inc := none,
             msg := "incident save failed", queries := 1 }
  else
    let inc := makeIncident e a iid
    let e' := { e with incidentId := some iid }
    if fs.eventSaveInCreateFails then
      .error { mem := e', persisted := e, inc := some inc,
               msg := "event save failed", queries := 2 }
    else if fs.incidentKafkaFails then
      .error { mem := e', persisted := e', inc := some inc,
               msg := "kafka send failed", queries := 2 }
    else .ok (e', inc, 2)

/-- `processSingleEvent` (event-processor.service.ts:75-105): analyze,
create the incident when a draft came back, then mark the event
`processed` and save.  `loggingService.logEvent` cannot throw. -/
def processSingleEvent (fs : FailSpec) (e : Event) (iid : Nat) (now : Int) :
    Except PErr POk :=
  match analyzeEventForIncident e with
  | none =>
    let e2 := { e with status := "processed", processedAt := some now }
    if fs.processedSaveFails then
      .error { mem := e2, persisted := e, inc := none,
               msg := "event save failed", queries := 1 }
    else .ok { ev := e2, inc := none, queries := 1 }
  | some a =>
    match runCreateIncident fs e a iid with
    | .error err => .error err
    | .ok (e', inc, q) =>
      let e2 := { e' with status := "processed", processedAt := some now }
      if fs.processedSaveFails then
        .error { mem := e2, persisted := e', inc := some inc,
                 msg := "event save failed", queries := q + 1 }
      else .ok { ev := e2, inc := some inc, queries := q + 1 }

/-- Net effect of the loop body of `processEvents` (lines 58-68) on one
event: on a throw the catch sets `status='failed'` and
`processingError` on the in-memory document and saves it — persisting
every in-memory mutation made before the throw.  If even that save
fails, the error escapes to the outer catch and the batch loop stops
(`aborted`). -/
structure SingleOutcome where
  dbEvent : Event
  newIncident : Option Incident
  queries : Nat
  aborted : Bool
deriving Repr, DecidableEq

/-- One iteration of the `for` loop of `processEvents`. -/
def handleEvent (fs : FailSpec) (e : Event) (iid : Nat) (now : Int) :
    SingleOutcome :=
  match processSingleEvent fs e iid now with
  | .ok r => { dbEvent := r.ev, newIncident := r.inc, queries := r.queries,
               aborted := false }
  | .error err =>
    let failedMem := { err.mem with
                       status := "failed",
                       processingError := some err.msg }
    if fs.failedSaveFails then
      { dbEvent := err.persisted, newIncident := err.inc,
        queries := err.queries + 1, aborted := true }
    else
      { dbEvent := failedMem, newIncident := err.inc,
        queries := err.queries + 1, aborted := false }

/-- The persisted collections. -/
structure Db where
  events : List Event
  incidents : List Incident
deriving Repr, DecidableEq

/-- `event.save()` writes the row back by id. -/
def saveEvent (l : List Event) (e : Event) : List Event :=
  l.map fun x => if x.id = e.id then e else x

/-- The `for` loop of `processEvents`, over the snapshot list of
pending events.  Returns the updated collections, the next fresh
incident id and the number of DB calls. -/
def processLoop (fs : Nat → FailSpec) (now : Int) :
    List Event → Db → Nat → Db × Nat × Nat
  | [], db, iid => (db, iid, 0)
  | e :: rest, db, iid =>
    let o := handleEvent (fs e.id) e iid now
    let db' : Db := { events := saveEvent db.events o.dbEvent,
                      incidents := db.incidents ++ o.newIncident.toList }
    let iid' := if o.newIncident.isSome then iid + 1 else iid
    if o.aborted then (db', iid', o.queries)
    else
      let (db'', iid'', q) := processLoop fs now rest db' iid'
      (db'', iid'', o.queries + q)

/-- The `find({status:'pending'}).sort({timestamp:1}).limit(100)` query
(event-processor.service.ts:46-50). -/
def pendingQuery (db : Db) : List Event :=
  (((db.events.filter fun e => e.status = "pending").mergeSort
    fun a b => a.timestamp ≤ b.timestamp).take 100)

/-- `processEvents` (event-processor.service.ts:43-73): one find query,
then the per-event loop. -/
def processEvents (fs : Nat → FailSpec) (db : Db) (iid : Nat) (now : Int) :
    Db × Nat × Nat :=
  let (db', iid', q) := processLoop fs now (pendingQuery db) db iid
  (db', iid', q + 1)

/-- The batch-processor state: the collections, the mutual-exclusion
flag and the fresh-incident-id supply. -/
structure ProcState where
  db : Db
  isProcessing : Bool := false
  nextIncidentId : Nat := 0
deriving Repr, DecidableEq

/-- `processPendingEvents` (event-processor.service.ts:26-41): if a run
is already in progress the trigger returns immediately (zero DB
queries); otherwise the flag is set, the run executes, and the flag is
cleared in `finally`.  Returns the new state and the DB query count. -/
def processPendingEvents (fs : Nat → FailSpec) (s : ProcState) (now : Int) :
    ProcState × Nat :=
  if s.isProcessing then (s, 0)
  else
    let (db', iid', q) := processEvents fs s.db s.nextIncidentId now
    ({ db := db', isProcessing := false, nextIncidentId := iid' }, q)

/-! ## Topic provisioning (kafka.service.ts:169-248)

Broker interactions are abstracted by an oracle `Nat → Bool` telling
whether the `attempt`-th admin round-trip (connect, fetch metadata,
create when absent, disconnect) succeeds. -/

/-- `const maxRetries = 3` (kafka.service.ts:170). -/
def maxRetries : Nat := 3

/-- `Math.min(1000 * Math.pow(2, attempt - 1), 5000)`
(kafka.service.ts:206). -/
def backoffWait (attempt : Nat) : Nat := min (1000 * 2 ^ (attempt - 1)) 5000

/-- The set of topics the broker knows. -/
structure Broker where
  topics : List String
deriving Repr, DecidableEq

/-- One successful admin round-trip of `ensureTopicExists`: create the
topic when the metadata shows it absent. -/
def attemptEnsure (b : Broker) (t : String) : Broker :=
  if b.topics.contains t then b else { topics := t :: b.topics }

/-- Result of `ensureTopicExists`: the winning attempt number (or the
rethrown last error), the broker afterwards, and the backoff waits
performed. -/
structure EnsureResult where
  result : Except String Nat
  broker : Broker
  waits : List Nat
deriving Repr

/-- The retry loop of `ensureTopicExists` (kafka.service.ts:173-215):
`remaining` attempts left, the current one numbered `attempt`; after a
failed non-final attempt the loop sleeps `backoffWait attempt`. -/
def ensureLoop (oracle : Nat → Bool) (b : Broker) (t : String) :
    Nat → Nat → EnsureResult
  | 0, _ => { result := .error "ensure topic failed", broker := b, waits := [] }
  | r + 1, a =>
    if oracle a then
      { result := .ok a, broker := attemptEnsure b t, waits := [] }
    else if r = 0 then
      { result := .error "ensure topic failed", broker := b, waits := [] }
    else
      let rest := ensureLoop oracle b t r (a + 1)
      { rest with waits := backoffWait a :: rest.waits }

/-- `ensureTopicExists` (kafka.service.ts:169-216). -/
def ensureTopicExists (oracle : Nat → Bool) (b : Broker) (t : String) :
    EnsureResult :=
  ensureLoop oracle b t maxRetries 1

/-- The fixed default-topic list (kafka.service.ts:219-224):
name, partitions, replication. -/
def defaultTopics : List (String × Nat × Nat) :=
  [("opsai-events", 3, 1), ("opsai-incidents", 3, 1),
   ("opsai-knowledge", 3, 1), ("opsai-dlq", 1, 1)]

/-- The per-topic outcome recorded by `initializeDefaultTopics`: the
inner catch turns a rethrown provisioning error into a `'failed'`
record instead of letting it escape. -/
def topicStatus (oracle : String → Nat → Bool) (b : Broker) (name : String) :
    String :=
  match (ensureTopicExists (oracle name) b name).result with
  | .ok _ => "success"
  | .error _ => "failed"

/-- `initializeDefaultTopics` (kafka.service.ts:218-248): every topic
is provisioned independently (`Promise.allSettled` plus the inner
catch); the function always returns the four per-topic records and
never throws — startup continues in degraded mode on failures. -/
def initializeDefaultTopics (oracle : String → Nat → Bool) (b : Broker) :
    List (String × String) :=
  defaultTopics.map fun tp => (tp.1, topicStatus oracle b tp.1)

/-! ## Theorems -/

/-- C4: for every Wikimedia raw input whose `comment` field contains
the substring "vandalism" (case-insensitive), the severity classifier
returns `critical`. -/
theorem vandalism_comment_critical (w : WikiEvent)
    (h : jsIncludes (jsToLower (w.comment.getD "")) "vandalism" = true) :
    analyzeWikimediaSeverity w = .ok "critical" := by
  simp [analyzeWikimediaSeverity, sensitiveKeywords, someSensitive, h,
        Bind.bind, Except.bind, Pure.pure, Except.pure]

/-- Witness for `vandalism_comment_critical`: an input whose comment is
"Reverted VANDALISM" (and which has no title at all) classifies
`critical`. -/
theorem vandalism_comment_critical_witness :
    jsIncludes
      (jsToLower (({ comment := some "Reverted VANDALISM" } : WikiEvent).comment.getD ""))
      "vandalism" = true ∧
    analyzeWikimediaSeverity { comment := some "Reverted VANDALISM" } =
      .ok "critical" :=
  ⟨by decide, vandalism_comment_critical _ (by decide)⟩

/-- C2: an event with `severity=low` produces no incident draft, and
processing it — under any failure pattern — creates no Incident row. -/
theorem low_severity_no_incident (e : Event) (h : e.severity = "low") :
    analyzeEventForIncident e = none ∧
    ∀ fs iid now, (handleEvent fs e iid now).newIncident = none := by
  have h1 : analyzeEventForIncident e = none := by
    simp [analyzeEventForIncident, h]
  refine ⟨h1, fun fs iid now => ?_⟩
  unfold handleEvent processSingleEvent
  rw [h1]
  by_cases hp : fs.processedSaveFails <;>
    by_cases hf : fs.failedSaveFails <;> simp [hp, hf]

/-- Witness for `low_severity_no_incident`: a concrete low-severity
github event yields no draft and no incident even when every save
fails. -/
theorem low_severity_no_incident_witness :
    ({ id := 1, source := "github", severity := "low" } : Event).severity
        = "low" ∧
    analyzeEventForIncident { id := 1, source := "github", severity := "low" }
        = none ∧
    (handleEvent { incidentSaveFails := true, eventSaveInCreateFails := true,
                   incidentKafkaFails := true, processedSaveFails := true,
                   failedSaveFails := true }
      { id := 1, source := "github", severity := "low" } 4 0).newIncident
        = none := by
  refine ⟨rfl, ?_, ?_⟩
  · exact (low_severity_no_incident _ rfl).1
  · exact (low_severity_no_incident _ rfl).2 _ 4 0

/-- C9: triggering the batch-processor cycle while a run is in progress
is a no-op — the state (every Event and Incident row, the flag, the id
supply) is returned unchanged and zero DB queries are issued. -/
theorem concurrent_trigger_noop (fs : Nat → FailSpec) (s : ProcState)
    (now : Int) (h : s.isProcessing = true) :
    processPendingEvents fs s now = (s, 0) := by
  simp [processPendingEvents, h]

/-- A one-pending-event store used by witnesses. -/
def busyState : ProcState :=
  { db := { events := [{ id := 1, source := "github", severity := "critical" }],
            incidents := [] },
    isProcessing := true }

/-- Witness for `concurrent_trigger_noop`: a busy processor with one
pending event in the store ignores the second trigger. -/
theorem concurrent_trigger_noop_witness :
    busyState.isProcessing = true ∧
    processPendingEvents (fun _ => {}) busyState 0 = (busyState, 0) :=
  ⟨rfl, concurrent_trigger_noop _ _ _ rfl⟩

/-- C7 counterexample: a `PullRequestEvent` opened with a label named
"security" on the pull request itself (`payload.pull_request.labels`)
classifies `low`, not `high` — the classifier only inspects
`payload.issue.labels`. -/
theorem pull_request_label_low_ctrex :
    analyzeGitHubSeverity
      { gtype := "PullRequestEvent",
        payload := some
          { action := some "opened",
            pull_request := some { labels := some [{ name := "security" }] } } }
      = "low" := by decide

/-- C7 (amended): for a GitHub input of type IssuesEvent or
PullRequestEvent with `payload.action="opened"`, the classifier returns
`high` when `payload.issue` carries a label named (case-insensitive)
"security", "bug" or "critical" — for both event types only
`payload.issue.labels` is inspected, never
`payload.pull_request.labels`. -/
theorem issue_label_high (g : GitHubEvent) (p : Payload) (ls : List Label)
    (l : Label)
    (hg : g.gtype = "IssuesEvent" ∨ g.gtype = "PullRequestEvent")
    (hp : g.payload = some p) (ha : p.action = some "opened")
    (hl : p.issue.bind (·.labels) = some ls) (hm : l ∈ ls)
    (hn : jsToLower l.name = "security" ∨ jsToLower l.name = "bug" ∨
          jsToLower l.name = "critical") :
    analyzeGitHubSeverity g = "high" := by
  rcases hg with h | h <;>
    simp [analyzeGitHubSeverity, h, hp, ha, hl] <;>
    exact ⟨l, hm, by rcases hn with h | h | h <;> simp [h]⟩

/-- Witness for `issue_label_high`: an IssuesEvent opened with a "BUG"
label classifies `high`. -/
theorem issue_label_high_witness :
    analyzeGitHubSeverity
      { gtype := "IssuesEvent",
        payload := some
          { action := some "opened",
            issue := some { labels := some [{ name := "BUG" }] } } } = "high" :=
  issue_label_high _ _ [{ name := "BUG" }] { name := "BUG" }
    (Or.inl rfl) rfl rfl rfl (by decide) (Or.inr (Or.inl (by decide)))

/-- C8 counterexample: the Wikimedia classifier is not total — on an
input missing both `comment` and `title` it throws a TypeError
dereferencing `wikiEvent.title`. -/
theorem wikimedia_classifier_throws_ctrex :
    analyzeWikimediaSeverity { comment := none, title := none } =
      .error "TypeError: Cannot read properties of undefined" := rfl

/-- With a present title the keyword scan cannot throw. -/
theorem someSensitive_some_title_ok (comment t : String) (ks : List String) :
    ∃ b, someSensitive comment (some t) ks = .ok b := by
  induction ks with
  | nil => exact ⟨false, rfl⟩
  | cons k ks ih =>
    by_cases h1 : jsIncludes comment k
    · exact ⟨true, by simp [someSensitive, h1]⟩
    · by_cases h2 : jsIncludes (jsToLower t) k
      · exact ⟨true, by simp [someSensitive, h1, h2]⟩
      · obtain ⟨b, hb⟩ := ih
        exact ⟨b, by simp [someSensitive, h1, h2, hb]⟩

/-- C8 (amended): the Wikimedia severity classifier is total on every
input whose `title` field is present (whatever the shape of `comment`
and `length`), returning exactly one of low/medium/high/critical; on an
input missing `title` it can instead throw a TypeError (see
`wikimedia_classifier_throws_ctrex`), which the stream handler catches,
skipping the chunk. -/
theorem wikimedia_classifier_total_with_title (w : WikiEvent) (t : String)
    (ht : w.title = some t) :
    ∃ s, analyzeWikimediaSeverity w = .ok s ∧
      (s = "low" ∨ s = "medium" ∨ s = "high" ∨ s = "critical") := by
  obtain ⟨b, hb⟩ :=
    someSensitive_some_title_ok (jsToLower (w.comment.getD "")) t
      sensitiveKeywords
  unfold analyzeWikimediaSeverity
  rw [ht]
  simp only [hb, Bind.bind, Except.bind]
  cases b with
  | true => exact ⟨"critical", by simp [Pure.pure, Except.pure], by simp⟩
  | false =>
    simp only [Bool.false_eq_true, if_false]
    split_ifs with h1 h2
    · exact ⟨"high", by simp [Pure.pure, Except.pure], by simp⟩
    · exact ⟨"medium", by simp [Pure.pure, Except.pure], by simp⟩
    · exact ⟨"low", by simp [Pure.pure, Except.pure], by simp⟩

/-- Witness for `wikimedia_classifier_total_with_title`: an event with
a title and nothing else classifies without throwing. -/
theorem wikimedia_classifier_total_with_title_witness :
    ({ title := some "Some Article" } : WikiEvent).title = some "Some Article" ∧
    ∃ s, analyzeWikimediaSeverity { title := some "Some Article" } = .ok s ∧
      (s = "low" ∨ s = "medium" ∨ s = "high" ∨ s = "critical") :=
  ⟨rfl, wikimedia_classifier_total_with_title _ "Some Article" rfl⟩

/-- C6 counterexample: when the incident-created Kafka notification
throws after the incident row and the event's `incidentId` were saved,
the catch in `processEvents` marks the event `failed` — the persisted
row then has `status="failed"` together with a set `incidentId`,
contradicting "only events that end `processed` carry an
`incidentId`". -/
theorem failed_event_with_incident_ctrex :
    (handleEvent { incidentKafkaFails := true }
        { id := 5, source := "github", severity := "critical" } 7 100).dbEvent.status
      = "failed" ∧
    (handleEvent { incidentKafkaFails := true }
        { id := 5, source := "github", severity := "critical" } 7 100).dbEvent.incidentId
      = some 7 ∧
    ((handleEvent { incidentKafkaFails := true }
        { id := 5, source := "github", severity := "critical" } 7 100).newIncident.map
      (·.eventIds)) = some [5] :=
  ⟨rfl, rfl, rfl⟩

/-- C6 (amended): in one processing run an event's `incidentId` is
assigned at most once — it is either untouched or set to the single
fresh incident id, and only when an Incident row linking back to the
event was actually created; on a run with no I/O failures such an event
ends `processed`, but a failure striking after incident creation leaves
the event `failed` while still carrying its `incidentId`
(see `failed_event_with_incident_ctrex`). -/
theorem incident_id_assignment (fs : FailSpec) (e : Event) (iid : Nat)
    (now : Int) (h : e.incidentId = none) :
    ((handleEvent fs e iid now).dbEvent.incidentId = none ∨
      (handleEvent fs e iid now).dbEvent.incidentId = some iid) ∧
    ((handleEvent fs e iid now).dbEvent.incidentId = some iid →
      ∃ inc, (handleEvent fs e iid now).newIncident = some inc ∧
        inc.eventIds = [e.id]) ∧
    (fs = {} →
      (handleEvent fs e iid now).dbEvent.status = "processed" ∧
      ((handleEvent fs e iid now).dbEvent.incidentId.isSome ↔
        (analyzeEventForIncident e).isSome)) := by
  obtain ⟨f1, f2, f3, f4, f5⟩ := fs
  cases hA : analyzeEventForIncident e <;>
    cases f1 <;> cases f2 <;> cases f3 <;> cases f4 <;> cases f5 <;>
      simp [handleEvent, processSingleEvent, runCreateIncident, makeIncident,
            hA, h]

/-- Witness for `incident_id_assignment`: a critical github event with
no prior `incidentId`, processed with a failing Kafka notification. -/
theorem incident_id_assignment_witness :
    ({ id := 5, source := "github", severity := "critical" } : Event).incidentId
      = none ∧
    ((handleEvent { incidentKafkaFails := true }
        { id := 5, source := "github", severity := "critical" } 7 100).dbEvent.incidentId = none ∨
      (handleEvent { incidentKafkaFails := true }
        { id := 5, source := "github", severity := "critical" } 7 100).dbEvent.incidentId = some 7) :=
  ⟨rfl,
    (incident_id_assignment { incidentKafkaFails := true }
      { id := 5, source := "github", severity := "critical" } 7 100 rfl).1⟩

/-- Bounds for the provisioning retry loop: a successful attempt number
lies between the starting attempt and the fuel bound. -/
theorem ensureLoop_ok_bound (oracle : Nat → Bool) (b : Broker) (t : String) :
    ∀ r a0 a, (ensureLoop oracle b t r a0).result = .ok a →
      a0 ≤ a ∧ a < a0 + r := by
  intro r
  induction r with
  | zero => intro a0 a h; simp [ensureLoop] at h
  | succ n ih =>
    intro a0 a h
    by_cases h1 : oracle a0
    · simp [ensureLoop, h1] at h
      omega
    · by_cases h2 : n = 0
      · subst h2; simp [ensureLoop, h1] at h
      · simp [ensureLoop, h1, h2] at h
        have := ih (a0 + 1) a h
        omega

/-- C10: topic provisioning makes at most 3 attempts; the exponential
backoff is capped at 5000 ms; two failures followed by a success yield
a successful call with the topic present and waits of 1000 then 2000
ms; the per-topic outcome of `initializeDefaultTopics` depends only on
that topic's own broker interactions; and default-topic initialization
always returns all four per-topic records (degraded mode, no throw). -/
theorem topic_provisioning_retry :
    (∀ oracle b t a, (ensureTopicExists oracle b t).result = .ok a →
      1 ≤ a ∧ a ≤ 3) ∧
    (∀ attempt, backoffWait attempt ≤ 5000) ∧
    (∀ oracle b t, oracle 1 = false → oracle 2 = false → oracle 3 = true →
      (ensureTopicExists oracle b t).result = .ok 3 ∧
      (ensureTopicExists oracle b t).broker.topics.contains t = true ∧
      (ensureTopicExists oracle b t).waits = [1000, 2000]) ∧
    (∀ o1 o2 b name, o1 name = o2 name →
      topicStatus o1 b name = topicStatus o2 b name) ∧
    (∀ oracle b, (initializeDefaultTopics oracle b).length = 4) := by
  refine ⟨?_, ?_, ?_, ?_, ?_⟩
  · intro oracle b t a h
    have := ensureLoop_ok_bound oracle b t maxRetries 1 a h
    simp [maxRetries] at this
    omega
  · intro attempt
    exact Nat.min_le_right _ _
  · intro oracle b t h1 h2 h3
    have hc : t ∈ (attemptEnsure b t).topics := by
      unfold attemptEnsure
      split_ifs with hb
      · simpa using hb
      · simp
    refine ⟨?_, ?_, ?_⟩ <;>
      simp [ensureTopicExists, maxRetries, ensureLoop, h1, h2, h3, hc,
            backoffWait]
  · intro o1 o2 b name h
    simp [topicStatus, h]
  · intro oracle b
    rfl

/-- The failure-free run of `processSingleEvent` on an event whose
analysis produced a draft: incident saved, `incidentId` set and saved,
notification sent, event marked `processed` and saved. -/
theorem processSingleEvent_ok (e : Event) (a : Analysis) (iid : Nat)
    (now : Int) (hA : analyzeEventForIncident e = some a) :
    processSingleEvent {} e iid now =
      .ok { ev := { e with
                    incidentId := some iid,
                    status := "processed",
                    processedAt := some now },
            inc := some (makeIncident e a iid),
            queries := 3 } := by
  simp [processSingleEvent, runCreateIncident, hA]

/-- C3: a GitHub raw input with `type="SecurityAdvisoryEvent"`
classifies `critical` whatever its other fields, and batch-processing
the normalized event (no I/O failures) synthesizes a security-alert
Incident linked back to it (`eventIds=[event.id]`, the event's
`incidentId` set to the new row's id, the event ending `processed`). -/
theorem security_advisory_critical_and_incident (g : GitHubEvent)
    (i iid : Nat) (now : Int) (h : g.gtype = "SecurityAdvisoryEvent") :
    analyzeGitHubSeverity g = "critical" ∧
    ∃ inc,
      processSingleEvent {} (normalizeGitHub i g) iid now =
        .ok { ev := { normalizeGitHub i g with
                      incidentId := some iid,
                      status := "processed",
                      processedAt := some now },
              inc := some inc,
              queries := 3 } ∧
      inc.eventIds = [i] ∧ inc.severity = "critical" ∧
      inc.source = "github" ∧ "security_alert" ∈ inc.tags ∧
      inc.detectedAt = (normalizeGitHub i g).timestamp := by
  have hsev : analyzeGitHubSeverity g = "critical" := by
    simp [analyzeGitHubSeverity, h]
  have hA : analyzeEventForIncident (normalizeGitHub i g) =
      some (securityAlertAnalysis "critical" (Raw.github g)) := by
    simp [analyzeEventForIncident, analyzeGitHubEvent, normalizeGitHub, hsev]
  refine ⟨hsev, makeIncident (normalizeGitHub i g)
      (securityAlertAnalysis "critical" (Raw.github g)) iid,
    processSingleEvent_ok _ _ iid now hA, ?_, ?_, ?_, ?_, ?_⟩ <;>
    simp [makeIncident, securityAlertAnalysis, normalizeGitHub]

/-- Witness for `security_advisory_critical_and_incident`: the bare
security-advisory payload. -/
theorem security_advisory_critical_and_incident_witness :
    ({ gtype := "SecurityAdvisoryEvent" } : GitHubEvent).gtype
      = "SecurityAdvisoryEvent" ∧
    analyzeGitHubSeverity { gtype := "SecurityAdvisoryEvent" } = "critical" :=
  ⟨rfl, (security_advisory_critical_and_incident
    { gtype := "SecurityAdvisoryEvent" } 5 7 100 rfl).1⟩

/-- A keyword scan over a present title with no match anywhere returns
`ok false`. -/
theorem someSensitive_none_match (comment t : String) (ks : List String)
    (h : ∀ k ∈ ks, jsIncludes comment k = false ∧
      jsIncludes (jsToLower t) k = false) :
    someSensitive comment (some t) ks = .ok false := by
  induction ks with
  | nil => rfl
  | cons k ks ih =>
    have hk := h k (List.mem_cons_self k ks)
    simp [someSensitive, hk.1, hk.2,
          ih fun k' hk' => h k' (List.mem_cons_of_mem _ hk')]

/-- C5: a Wikimedia input with `length.old=1000`, `length.new=61000`
(delta 60000), a present title, and no sensitive keyword in comment or
title and no important-page match in the title classifies `high`; and
batch-processing the normalized event (no I/O failures) synthesizes a
mass-content-change Incident of severity `high` linked back to it —
the synthesis threshold 50000 sits strictly above the classification
threshold 10000 and below the delta. -/
theorem mass_change_high_incident (w : WikiEvent) (t : String)
    (i iid : Nat) (now : Int)
    (hl : w.length = some { old := some 1000, new := some 61000 })
    (ht : w.title = some t)
    (hks : ∀ k ∈ sensitiveKeywords,
      jsIncludes (jsToLower (w.comment.getD "")) k = false ∧
      jsIncludes (jsToLower t) k = false)
    (_hip : ∀ p ∈ importantPages, jsIncludes (jsToLower t) p = false) :
    analyzeWikimediaSeverity w = .ok "high" ∧
    ∃ e inc, normalizeWikimedia i w = .ok e ∧ e.severity = "high" ∧
      processSingleEvent {} e iid now =
        .ok { ev := { e with
                      incidentId := some iid,
                      status := "processed",
                      processedAt := some now },
              inc := some inc,
              queries := 3 } ∧
      inc.eventIds = [i] ∧ inc.severity = "high" ∧
      "mass_content_change" ∈ inc.tags ∧ inc.detectedAt = e.timestamp := by
  have hscan := someSensitive_none_match
    (jsToLower (w.comment.getD "")) t sensitiveKeywords hks
  have hsev : analyzeWikimediaSeverity w = .ok "high" := by
    unfold analyzeWikimediaSeverity
    rw [ht]
    simp [hscan, Bind.bind, Except.bind, hl, Pure.pure, Except.pure]
  refine ⟨hsev, ?_⟩
  have hnorm : normalizeWikimedia i w =
      .ok { id := i, source := "wikimedia", etype := "change",
            timestamp := w.metaDt, raw := .wiki w,
            tags := extractWikimediaTags w, status := "pending",
            severity := "high", service := some "wikipedia",
            summary := generateWikimediaSummary w } := by
    simp [normalizeWikimedia, hsev, Bind.bind, Except.bind, Pure.pure,
          Except.pure]
  have hA : analyzeEventForIncident
      { id := i, source := "wikimedia", etype := "change",
        timestamp := w.metaDt, raw := .wiki w,
        tags := extractWikimediaTags w, status := "pending",
        severity := "high", service := some "wikipedia",
        summary := generateWikimediaSummary w } =
      some (massContentChangeAnalysis "high") := by
    simp [analyzeEventForIncident, analyzeWikimediaEvent, rawWikiLength, hl]
  refine ⟨_, makeIncident
      { id := i, source := "wikimedia", etype := "change",
        timestamp := w.metaDt, raw := .wiki w,
        tags := extractWikimediaTags w, status := "pending",
        severity := "high", service := some "wikipedia",
        summary := generateWikimediaSummary w }
      (massContentChangeAnalysis "high") iid,
    hnorm, rfl, processSingleEvent_ok _ _ iid now hA, ?_, ?_, ?_, ?_⟩ <;>
    simp [makeIncident, massContentChangeAnalysis]

/-- Witness for `mass_change_high_incident`: a 60000-byte edit to the
page "Quantum mechanics" with no comment. -/
theorem mass_change_high_incident_witness :
    analyzeWikimediaSeverity
      { title := some "Quantum mechanics",
        length := some { old := some 1000, new := some 61000 } } =
      .ok "high" :=
  (mass_change_high_incident
    { title := some "Quantum mechanics",
      length := some { old := some 1000, new := some 61000 } }
    "Quantum mechanics" 5 7 100 rfl rfl (by decide) (by decide)).1

/-- The row persisted for an event keeps its id, whatever fails. -/
theorem handleEvent_dbEvent_id (fs : FailSpec) (e : Event) (iid : Nat)
    (now : Int) : (handleEvent fs e iid now).dbEvent.id = e.id := by
  obtain ⟨f1, f2, f3, f4, f5⟩ := fs
  cases hA : analyzeEventForIncident e <;>
    cases f1 <;> cases f2 <;> cases f3 <;> cases f4 <;> cases f5 <;>
      simp [handleEvent, processSingleEvent, runCreateIncident, hA]

/-- The row persisted for an event carries status `processed`, `failed`
or the event's own prior status (when no save went through). -/
theorem handleEvent_dbEvent_status (fs : FailSpec) (e : Event) (iid : Nat)
    (now : Int) :
    (handleEvent fs e iid now).dbEvent.status = "processed" ∨
    (handleEvent fs e iid now).dbEvent.status = "failed" ∨
    (handleEvent fs e iid now).dbEvent.status = e.status := by
  obtain ⟨f1, f2, f3, f4, f5⟩ := fs
  cases hA : analyzeEventForIncident e <;>
    cases f1 <;> cases f2 <;> cases f3 <;> cases f4 <;> cases f5 <;>
      simp [handleEvent, processSingleEvent, runCreateIncident, hA]

/-- How one loop pass may rewrite a stored row: untouched, or written
on behalf of some selected event `t` with status `processed`, `failed`
or `t`'s own status. -/
def LoopEvolution (todo : List Event) (e e' : Event) : Prop :=
  e'.id = e.id ∧
  (e' = e ∨ ∃ t ∈ todo, t.id = e.id ∧
    (e'.status = "processed" ∨ e'.status = "failed" ∨ e'.status = t.status))

/-- The per-row statement of C1: ids stable, non-pending rows
untouched, pending rows end pending, processed or failed. -/
def StatusEvolution (e e' : Event) : Prop :=
  e'.id = e.id ∧
  (e.status ≠ "pending" → e' = e) ∧
  (e.status = "pending" →
    e'.status = "pending" ∨ e'.status = "processed" ∨ e'.status = "failed")

/-- Composition of `Forall₂` along a relation composition. -/
theorem forall₂_comp {α : Type} {r s u : α → α → Prop}
    (h : ∀ a b c, r a b → s b c → u a c) :
    ∀ {l₁ l₂ l₃ : List α}, List.Forall₂ r l₁ l₂ → List.Forall₂ s l₂ l₃ →
      List.Forall₂ u l₁ l₃ := by
  intro l₁ l₂ l₃ h12
  induction h12 generalizing l₃ with
  | nil => intro h23; cases h23; exact .nil
  | cons hab _ ih =>
    intro h23
    cases h23 with
    | cons hbc h'' => exact .cons (h _ _ _ hab hbc) (ih h'')

theorem loopEvolution_comp (e0 : Event) (todo : List Event)
    (a b c : Event) (h1 : LoopEvolution (e0 :: todo) a b)
    (h2 : LoopEvolution todo b c) : LoopEvolution (e0 :: todo) a c := by
  obtain ⟨hid1, h1⟩ := h1
  obtain ⟨hid2, h2⟩ := h2
  refine ⟨hid2.trans hid1, ?_⟩
  rcases h2 with rfl | ⟨t, ht, htid, hst⟩
  · exact h1
  · exact Or.inr ⟨t, List.mem_cons_of_mem _ ht, htid.trans hid1, hst⟩

/-- A write-back of a row derived from a selected event `t` is a
`LoopEvolution` of the whole collection. -/
theorem saveEvent_forall₂ (l : List Event) (e : Event) (todo : List Event)
    (he : ∃ t ∈ todo, t.id = e.id ∧
      (e.status = "processed" ∨ e.status = "failed" ∨ e.status = t.status)) :
    List.Forall₂ (LoopEvolution todo) l (saveEvent l e) := by
  unfold saveEvent
  rw [List.forall₂_map_right_iff, List.forall₂_same]
  intro x _
  split_ifs with hid
  · obtain ⟨t, ht, htid, hst⟩ := he
    exact ⟨hid.symm, Or.inr ⟨t, ht, htid.trans hid.symm, hst⟩⟩
  · exact ⟨rfl, Or.inl rfl⟩

/-- The batch loop only performs `LoopEvolution` rewrites of the event
collection. -/
theorem processLoop_evolution (fs : Nat → FailSpec) (now : Int) :
    ∀ (todo : List Event) (db : Db) (iid : Nat),
      List.Forall₂ (LoopEvolution todo) db.events
        (processLoop fs now todo db iid).1.events := by
  intro todo
  induction todo with
  | nil =>
    intro db iid
    exact List.forall₂_same.mpr fun x _ => ⟨rfl, Or.inl rfl⟩
  | cons e rest ih =>
    intro db iid
    have hstep : List.Forall₂ (LoopEvolution (e :: rest)) db.events
        (saveEvent db.events (handleEvent (fs e.id) e iid now).dbEvent) :=
      saveEvent_forall₂ _ _ _
        ⟨e, List.mem_cons_self e rest,
          (handleEvent_dbEvent_id (fs e.id) e iid now).symm,
          handleEvent_dbEvent_status (fs e.id) e iid now⟩
    by_cases ha : (handleEvent (fs e.id) e iid now).aborted
    · simpa [processLoop, ha] using hstep
    · have h2 := ih
        ⟨saveEvent db.events (handleEvent (fs e.id) e iid now).dbEvent,
         db.incidents ++ ((handleEvent (fs e.id) e iid now).newIncident).toList⟩
        (if (handleEvent (fs e.id) e iid now).newIncident.isSome then iid + 1
         else iid)
      have hcomp := forall₂_comp (loopEvolution_comp e rest) hstep h2
      rcases hres : processLoop fs now rest
          ⟨saveEvent db.events (handleEvent (fs e.id) e iid now).dbEvent,
           db.incidents ++ ((handleEvent (fs e.id) e iid now).newIncident).toList⟩
          (if (handleEvent (fs e.id) e iid now).newIncident.isSome then iid + 1
           else iid)
        with ⟨db2, iid2, q2⟩
      rw [hres] at hcomp
      simpa [processLoop, ha, hres] using hcomp

/-- Selected events are pending rows of the store. -/
theorem mem_pendingQuery {db : Db} {t : Event} (h : t ∈ pendingQuery db) :
    t ∈ db.events ∧ t.status = "pending" := by
  unfold pendingQuery at h
  have h1 := List.take_subset _ _ h
  rw [List.mem_mergeSort] at h1
  exact ⟨(List.mem_filter.mp h1).1, by simpa using (List.mem_filter.mp h1).2⟩

/-- C1: one batch-processor run maps the event collection row-for-row
so that ids are stable, every row that was not `pending` is returned
bit-for-bit unchanged (never reset to `pending`, never moved between
`processed` and `failed`), and every `pending` row ends `pending`
(unselected or save failed), `processed` or `failed`. -/
theorem status_transition_invariant (fs : Nat → FailSpec) (db : Db)
    (iid : Nat) (now : Int) (hnd : (db.events.map (·.id)).Nodup) :
    List.Forall₂ StatusEvolution db.events
      (processEvents fs db iid now).1.events := by
  have hloop := processLoop_evolution fs now (pendingQuery db) db iid
  have hproj : (processEvents fs db iid now).1 =
      (processLoop fs now (pendingQuery db) db iid).1 := by
    rcases hres : processLoop fs now (pendingQuery db) db iid
      with ⟨db2, iid2, q2⟩
    simp [processEvents, hres]
  rw [hproj]
  rw [List.forall₂_iff_zip] at hloop ⊢
  obtain ⟨hlen, hz⟩ := hloop
  refine ⟨hlen, fun {a b} hab => ?_⟩
  have hmem := List.of_mem_zip hab
  obtain ⟨hid, hcase⟩ := hz hab
  refine ⟨hid, ?_, ?_⟩
  · intro hnp
    rcases hcase with rfl | ⟨t, ht, htid, _⟩
    · rfl
    · obtain ⟨htm, htp⟩ := mem_pendingQuery ht
      have : t = a := List.inj_on_of_nodup_map hnd htm hmem.1 htid
      exact absurd (this ▸ htp) hnp
  · intro hp
    rcases hcase with rfl | ⟨t, ht, _, hst⟩
    · exact Or.inl hp
    · obtain ⟨_, htp⟩ := mem_pendingQuery ht
      rcases hst with h | h | h
      · exact Or.inr (Or.inl h)
      · exact Or.inr (Or.inr h)
      · exact Or.inl (h.trans htp)

/-- Witness for `status_transition_invariant`: a store holding one
pending critical github event and one already-processed event; the
pending one is processed, the processed one untouched. -/
theorem status_transition_invariant_witness :
    (([{ id := 1, source := "github", severity := "critical" },
       { id := 2, source := "github", severity := "low",
         status := "processed" }].map (Event.id)).Nodup) ∧
    List.Forall₂ StatusEvolution
      [{ id := 1, source := "github", severity := "critical" },
       { id := 2, source := "github", severity := "low",
         status := "processed" }]
      (processEvents (fun _ => {})
        { events := [{ id := 1, source := "github", severity := "critical" },
                     { id := 2, source := "github", severity := "low",
                       status := "processed" }],
          incidents := [] } 7 100).1.events :=
  ⟨by decide,
    status_transition_invariant (fun _ => {})
      { events := [{ id := 1, source := "github", severity := "critical" },
                   { id := 2, source := "github", severity := "low",
                     status := "processed" }],
        incidents := [] } 7 100 (by decide)⟩

/-- Witness for `topic_provisioning_retry`: an oracle failing attempts
1 and 2 and succeeding on attempt 3 provisions `opsai-events`. -/
theorem topic_provisioning_retry_witness :
    (ensureTopicExists (fun a => decide (a = 3)) { topics := [] }
      "opsai-events").result = .ok 3 ∧
    (ensureTopicExists (fun a => decide (a = 3)) { topics := [] }
      "opsai-events").broker.topics.contains "opsai-events" = true ∧
    (ensureTopicExists (fun a => decide (a = 3)) { topics := [] }
      "opsai-events").waits = [1000, 2000] :=
  topic_provisioning_retry.2.2.1 _ _ _ (by decide) (by decide) (by decide)

end Opsai
